import Mathlib

/-!
Shallow embedding of the star-sniffer endless-runner game.

The repository bundles several near-duplicate variants of the same game.
The namespace `CritterDash` embeds the simulation core of
`src/src/components/PikachuGame.tsx` (the "Cozy Critter Dash" variant);
the namespace `NeonDash` embeds the simulation core of the variant in
`src/unnamed/part_003` (the neon-styled variant with a paused state,
automatic flying/Gengar mode upgrades and grace periods).

JavaScript numbers are modelled as rationals (`ℚ`).  Calls to
`Math.random()` are modelled as explicit oracle inputs: each tick takes a
record of the values the random draws produced.  React state updates are
modelled by explicit state passing, in the order the source performs them.
-/

namespace CritterDash

/-- `type Ability` of PikachuGame.tsx. -/
inductive Ability where
  | doubleJump
  | glide
  | phase
  | chill
deriving DecidableEq

/-- `interface Dimensions` of PikachuGame.tsx. -/
structure Dimensions where
  width : ℚ
  height : ℚ
deriving DecidableEq

/-- `interface GameMode` of PikachuGame.tsx (the numeric/ability fields; the
cosmetic string fields — name, sprite, colors — are out of the core). -/
structure GameMode where
  id : String
  ability : Ability
  speed : ℚ
  speedRamp : ℚ
  gravity : ℚ
  jumpVelocity : ℚ
  spawnIntervalRange : ℚ × ℚ
  obstacleHeight : ℚ × ℚ
  hitboxPadding : Option ℚ
deriving DecidableEq

/-- `interface Rect` of PikachuGame.tsx. -/
structure Rect where
  x : ℚ
  y : ℚ
  width : ℚ
  height : ℚ
deriving DecidableEq

/-- `interface Obstacle extends Rect { id: number }` of PikachuGame.tsx. -/
structure Obstacle extends Rect where
  id : ℕ
deriving DecidableEq

/-- `interface Player extends Rect` of PikachuGame.tsx. -/
structure Player extends Rect where
  velocityY : ℚ
  jumpsUsed : ℕ
deriving DecidableEq

/-- `const PLAYER_SIZE = 56`. -/
def PLAYER_SIZE : ℚ := 56

/-- `const GROUND_HEIGHT = 56`. -/
def GROUND_HEIGHT : ℚ := 56

/-- `computeDimensions` of PikachuGame.tsx.  `hasWindow` models
`typeof window !== "undefined"`; `innerWidth` models `window.innerWidth`.
`Math.round` on a positive argument is `round` on `ℚ`. -/
def computeDimensions (hasWindow : Bool) (innerWidth : ℚ) : Dimensions :=
  if hasWindow then
    let padding : ℚ := if innerWidth < 1024 then 28 else 80
    let maxWidth : ℚ := if innerWidth < 1024 then 720 else 900
    let width := max 320 (min (innerWidth - padding) maxWidth)
    let height := max 260
      (min ((round (width * (if innerWidth < 1024 then (0.6 : ℚ) else 0.55)) : ℤ) : ℚ)
        (if innerWidth < 1024 then 340 else 420))
    { width := width, height := height }
  else
    { width := 640, height := 360 }

/-- `boxesIntersect` of PikachuGame.tsx (lines 80–84). -/
def boxesIntersect (a b : Rect) : Bool :=
  decide (a.x < b.x + b.width) &&
  decide (a.x + a.width > b.x) &&
  decide (a.y < b.y + b.height) &&
  decide (a.height + a.y > b.y)

/-- Entry `"pikachu"` of `GAME_MODES`. -/
def modePikachu : GameMode :=
  { id := "pikachu", ability := Ability.doubleJump, speed := 3.6, speedRamp := 0.032,
    gravity := 0.78, jumpVelocity := 11, spawnIntervalRange := (1300, 1700),
    obstacleHeight := (48, 78), hitboxPadding := none }

/-- Entry `"charizard"` of `GAME_MODES`. -/
def modeCharizard : GameMode :=
  { id := "charizard", ability := Ability.glide, speed := 4.2, speedRamp := 0.038,
    gravity := 0.62, jumpVelocity := 10.5, spawnIntervalRange := (1125, 1500),
    obstacleHeight := (52, 88), hitboxPadding := none }

/-- Entry `"gengar"` of `GAME_MODES`. -/
def modeGengar : GameMode :=
  { id := "gengar", ability := Ability.phase, speed := 3.4, speedRamp := 0.028,
    gravity := 0.74, jumpVelocity := 10.8, spawnIntervalRange := (1050, 1380),
    obstacleHeight := (56, 96), hitboxPadding := some 6 }

/-- Entry `"capybara"` of `GAME_MODES`. -/
def modeCapybara : GameMode :=
  { id := "capybara", ability := Ability.chill, speed := 3, speedRamp := 0.018,
    gravity := 0.7, jumpVelocity := 10.5, spawnIntervalRange := (1500, 1900),
    obstacleHeight := (44, 72), hitboxPadding := none }

/-- `const GAME_MODES` of PikachuGame.tsx. -/
def GAME_MODES : List GameMode := [modePikachu, modeCharizard, modeGengar, modeCapybara]

/-- `type GameState = "menu" | "playing" | "gameOver"` (PikachuGame.tsx line 10). -/
inductive GameState where
  | menu
  | playing
  | gameOver
deriving DecidableEq

/-- The ephemeral per-run refs of PikachuGame.tsx: `playerRef`, `obstaclesRef`,
`nextObstacleId`, `scoreRef`, `milestoneRef`, `elapsedRef`, `spawnTimerRef`. -/
structure SimState where
  player : Player
  obstacles : List Obstacle
  nextObstacleId : ℕ
  score : ℚ
  milestone : ℕ
  elapsed : ℚ
  spawnTimer : ℚ

/-- The floor level for the player: `groundLevel - PLAYER_SIZE`
where `groundLevel = dimensions.height - GROUND_HEIGHT`. -/
def floorYOf (dims : Dimensions) : ℚ := dims.height - GROUND_HEIGHT - PLAYER_SIZE

/-- The effective gravity of a tick (PikachuGame.tsx lines 405–406):
`mode.gravity` scaled by `0.45` while gliding with the jump key held. -/
def effGravity (mode : GameMode) (holding : Bool) : ℚ :=
  mode.gravity * (if mode.ability = Ability.glide && holding then 0.45 else 1)

/-- Velocity/position integration of a tick (PikachuGame.tsx lines 411–412),
with `r = delta / 16.67`:
`velocityY += gravity * r; y += velocityY * r`. -/
def integrate (g r : ℚ) (p : Player) : Player :=
  { p with velocityY := p.velocityY + g * r, y := p.y + (p.velocityY + g * r) * r }

/-- Floor clamp of a tick (PikachuGame.tsx lines 416–420). -/
def clampFloor (floorY : ℚ) (p : Player) : Player :=
  if floorY < p.y then { p with y := floorY, velocityY := 0, jumpsUsed := 0 } else p

/-- Ceiling clamp of a tick (PikachuGame.tsx lines 422–425). -/
def clampCeiling (p : Player) : Player :=
  if p.y < 0 then { p with y := 0, velocityY := 0 } else p

/-- The player-physics part of one tick of `step`
(PikachuGame.tsx lines 402–425). -/
def tickPlayer (mode : GameMode) (floorY delta : ℚ) (holding : Bool) (p : Player) : Player :=
  clampCeiling (clampFloor floorY (integrate (effGravity mode holding) (delta / 16.67) p))

/-- `maxJumps` inside `jump` (PikachuGame.tsx line 310). -/
def maxJumpsFor (mode : GameMode) : ℕ :=
  if mode.ability = Ability.doubleJump then 2 else 1

/-- The player mutation of `jump` (PikachuGame.tsx lines 306–318); the
`gameState !== "playing"` guard lives at the session level. -/
def jumpPlayer (mode : GameMode) (p : Player) : Player :=
  if maxJumpsFor mode ≤ p.jumpsUsed then p
  else { p with velocityY := -mode.jumpVelocity, y := p.y - 1, jumpsUsed := p.jumpsUsed + 1 }

/-- The ramp multiplier (PikachuGame.tsx lines 427–431).  `prm` models
`prefersReducedMotion`. -/
def rampOf (mode : GameMode) (prm : Bool) (elapsed : ℚ) : ℚ :=
  let rampBase := 1 + (elapsed / 1000) * mode.speedRamp
  min 1.75 (if prm then 1 + (rampBase - 1) * 0.6 else rampBase)

/-- Obstacle advance and despawn (PikachuGame.tsx lines 438–440):
each obstacle's `x` decreases by `d`, and obstacles with
`x + width ≤ -40` are dropped. -/
def moveFilter (d : ℚ) (l : List Obstacle) : List Obstacle :=
  (l.map fun o => { o with x := o.x - d }).filter fun o => decide (-40 < o.x + o.width)

/-- One tick's `Math.random()` draws (PikachuGame.tsx lines 445–468), as an
oracle: `clusterTwo` is `Math.random() < clusterChance`; `h1`/`w1` (and
`h2`/`w2` when a cluster of two spawns) are the drawn heights and widths;
`gap1` is the `randomBetween(54, 84)` gap; `recovery` is the
`randomBetween(220, 340)` recovery delay; `spawnDelay` is
`rollSpawnDelay(mode)`. -/
structure TickRand where
  clusterTwo : Bool
  h1 : ℚ
  w1 : ℚ
  gap1 : ℚ
  h2 : ℚ
  w2 : ℚ
  recovery : ℚ
  spawnDelay : ℚ

/-- The obstacles created by the spawn loop (PikachuGame.tsx lines 448–464):
the first at `x = spawnBase`, the second (for a cluster of two) offset by
`width₁ + gap`. -/
def spawnCluster (nextId : ℕ) (spawnBase groundLevel : ℚ) (r : TickRand) : List Obstacle :=
  let o1 : Obstacle :=
    { x := spawnBase, y := groundLevel - r.h1, width := r.w1, height := r.h1, id := nextId }
  if r.clusterTwo then
    [o1, { x := spawnBase + (r.w1 + r.gap1), y := groundLevel - r.h2,
           width := r.w2, height := r.h2, id := nextId + 1 }]
  else [o1]

/-- Result of the obstacle part of a tick. -/
structure ObsPhase where
  obstacles : List Obstacle
  nextId : ℕ
  spawnTimer : ℚ

/-- Obstacle advance, despawn and spawn of one tick
(PikachuGame.tsx lines 409, 435–469).  The spawn timer was already
decremented by `delta` at the top of the tick. -/
def obstaclePhase (mode : GameMode) (dims : Dimensions) (delta : ℚ) (rand : TickRand)
    (ramp : ℚ) (s : SimState) : ObsPhase :=
  let spawnTimer := s.spawnTimer - delta
  let speedModifier : ℚ := if mode.ability = Ability.chill then 0.8 else 1
  let distance := mode.speed * speedModifier * ramp * (delta / 16.67)
  let moved := moveFilter distance s.obstacles
  if spawnTimer ≤ 0 then
    { obstacles := moved ++ spawnCluster s.nextObstacleId (dims.width + 48)
        (dims.height - GROUND_HEIGHT) rand,
      nextId := s.nextObstacleId + (if rand.clusterTwo then 2 else 1),
      spawnTimer := rand.spawnDelay + (if rand.clusterTwo then rand.recovery else 0) }
  else
    { obstacles := moved, nextId := s.nextObstacleId, spawnTimer := spawnTimer }

/-- The padded player hitbox (PikachuGame.tsx lines 471–477). -/
def paddedBox (mode : GameMode) (p : Player) : Rect :=
  let padding := mode.hitboxPadding.getD 0
  { x := p.x + padding, y := p.y + padding,
    width := p.width - padding * 2, height := p.height - padding * 2 }

/-- The collision test of a tick (PikachuGame.tsx line 479). -/
def collides (mode : GameMode) (p : Player) (l : List Obstacle) : Bool :=
  l.any fun o => boxesIntersect (paddedBox mode p) o.toRect

/-- `const milestoneThresholds = [24, 60, 110]` (PikachuGame.tsx line 490). -/
def milestoneThresholds : List ℚ := [24, 60, 110]

/-- Milestone pointer update (PikachuGame.tsx lines 490–497). -/
def milestoneAfter (m : ℕ) (score : ℚ) : ℕ :=
  if m < milestoneThresholds.length ∧ milestoneThresholds.getD m 0 ≤ score then m + 1 else m

/-- Outcome of one tick: the run continues, or the collision ended it. -/
inductive Outcome where
  | continue
  | collided
deriving DecidableEq

/-- Result of one tick of `step`. -/
structure StepResult where
  sim : SimState
  outcome : Outcome

/-- One tick of the simulation: the body of `step`
(PikachuGame.tsx lines 397–534), minus the banner/hint strings.  On a
collision the source calls `endGame()` and returns before accruing score,
so the collided branch keeps `score` and `milestone` unchanged. -/
def step (mode : GameMode) (dims : Dimensions) (prm : Bool) (delta : ℚ)
    (holding : Bool) (rand : TickRand) (s : SimState) : StepResult :=
  let elapsed := s.elapsed + delta
  let player := tickPlayer mode (floorYOf dims) delta holding s.player
  let ramp := rampOf mode prm elapsed
  let ob := obstaclePhase mode dims delta rand ramp s
  if collides mode player ob.obstacles then
    { sim := { player := player, obstacles := ob.obstacles, nextObstacleId := ob.nextId,
               score := s.score, milestone := s.milestone, elapsed := elapsed,
               spawnTimer := ob.spawnTimer },
      outcome := Outcome.collided }
  else
    let score := s.score + delta * 0.015 * mode.speed * ramp
    { sim := { player := player, obstacles := ob.obstacles, nextObstacleId := ob.nextId,
               score := score, milestone := milestoneAfter s.milestone score,
               elapsed := elapsed, spawnTimer := ob.spawnTimer },
      outcome := Outcome.continue }

/-- `prepareScene` (PikachuGame.tsx lines 263–287); `spawnRoll` is the
`rollSpawnDelay(mode)` draw. -/
def prepareScene (mode : GameMode) (dims : Dimensions) (spawnRoll : ℚ) : SimState :=
  { player := { x := min 120 (dims.width * 0.2), y := floorYOf dims,
                width := PLAYER_SIZE, height := PLAYER_SIZE,
                velocityY := 0, jumpsUsed := 0 },
    obstacles := [], nextObstacleId := 0, score := 0, milestone := 0, elapsed := 0,
    spawnTimer := spawnRoll }

/-- The session owned by the game-state controller: React state `gameState`,
the selected mode, the per-run refs and the `bestScores` record (total over
mode-id strings; entries start at 0, matching `prev[mode.id] ?? 0`). -/
structure Session where
  state : GameState
  mode : GameMode
  sim : SimState
  bestScores : String → ℤ

/-- `endGame` (PikachuGame.tsx lines 294–304): enter `gameOver` and raise the
best score of the active mode when the floored score beats it. -/
def endGame (sess : Session) : Session :=
  let currentScore : ℤ := ⌊sess.sim.score⌋
  { sess with
    state := GameState.gameOver,
    bestScores := fun k =>
      if k = sess.mode.id then
        (if sess.bestScores sess.mode.id < currentScore then currentScore
         else sess.bestScores sess.mode.id)
      else sess.bestScores k }

/-- One scheduler tick at the controller level: the game-loop effect runs
`step` only while `gameState === "playing"` (PikachuGame.tsx lines 391–396),
and on a collided outcome `endGame` fires. -/
def tickSession (dims : Dimensions) (prm : Bool) (delta : ℚ) (holding : Bool)
    (rand : TickRand) (sess : Session) : Session :=
  if sess.state = GameState.playing then
    let r := step sess.mode dims prm delta holding rand sess.sim
    match r.outcome with
    | Outcome.collided => endGame { sess with sim := r.sim }
    | Outcome.continue => { sess with sim := r.sim }
  else sess

/-- A mode-select button press (PikachuGame.tsx lines 577–609): the buttons
are rendered in every state and `onClick` calls `setModeId(entry.id)` with no
game-state guard.  When the id actually changes, the effect at lines 386–389
runs `prepareScene()` and `setGameState("menu")`; selecting the already
active mode re-renders nothing. -/
def selectMode (entry : GameMode) (dims : Dimensions) (spawnRoll : ℚ) (sess : Session) :
    Session :=
  if entry.id = sess.mode.id then sess
  else { state := GameState.menu, mode := entry,
         sim := prepareScene entry dims spawnRoll, bestScores := sess.bestScores }

/-- The player states reachable from a freshly prepared scene by any sequence
of simulation ticks and jump commands.  Tick deltas are nonnegative
(`performance.now()` is monotone; the source clamps them above).  This
over-approximates the game (it allows jump commands in any state), so
invariants proved over it hold for the game. -/
inductive PlayerReach (mode : GameMode) (dims : Dimensions) : Player → Prop
  | init (roll : ℚ) : PlayerReach mode dims (prepareScene mode dims roll).player
  | tick {p : Player} (delta : ℚ) (holding : Bool) (hd : 0 ≤ delta) :
      PlayerReach mode dims p →
      PlayerReach mode dims (tickPlayer mode (floorYOf dims) delta holding p)
  | jump {p : Player} : PlayerReach mode dims p →
      PlayerReach mode dims (jumpPlayer mode p)

/-- The simulation states reachable from a freshly prepared scene by ticks and
jump commands. -/
inductive SimReach (mode : GameMode) (dims : Dimensions) : SimState → Prop
  | init (roll : ℚ) : SimReach mode dims (prepareScene mode dims roll)
  | tick {s : SimState} (prm : Bool) (delta : ℚ) (holding : Bool) (rand : TickRand) :
      SimReach mode dims s →
      SimReach mode dims (step mode dims prm delta holding rand s).sim
  | jump {s : SimState} : SimReach mode dims s →
      SimReach mode dims { s with player := jumpPlayer mode s.player }

/-- Invariant for the ground/ceiling clamp argument:
the player stays within `[0, floorY]`; with no jump spent the player rests on
the floor; in the double-jump mode with one jump spent, the energy
`y - v² / (2g)` is bounded below, so one jump can never carry the player to
the ceiling. -/
def PInv (mode : GameMode) (floorY : ℚ) (p : Player) : Prop :=
  0 ≤ p.y ∧ p.y ≤ floorY ∧
  (p.jumpsUsed = 0 → p.y = floorY ∧ p.velocityY = 0) ∧
  (mode.ability = Ability.doubleJump → p.jumpsUsed = 1 →
    floorY - (1 + mode.jumpVelocity ^ 2 / (2 * mode.gravity)) ≤
      p.y - p.velocityY ^ 2 / (2 * mode.gravity))

/-- Invariant for the obstacle lifecycle: ids in the live list are below the
counter and strictly increasing in list order. -/
def ObstaclesOk (s : SimState) : Prop :=
  (∀ o ∈ s.obstacles, o.id < s.nextObstacleId) ∧
  s.obstacles.Pairwise fun a b => a.id < b.id

/-- A concrete mid-run session used by witnesses. -/
def demoSession : Session :=
  { state := GameState.playing, mode := modePikachu,
    sim := prepareScene modePikachu { width := 640, height := 360 } 1500,
    bestScores := fun _ => 0 }

/-- A concrete set of per-tick random draws used by witnesses. -/
def demoTickRand : TickRand :=
  { clusterTwo := false, h1 := 50, w1 := 40, gap1 := 60, h2 := 50, w2 := 40,
    recovery := 0, spawnDelay := 1500 }

/-- A concrete playing session whose scene holds an obstacle sitting exactly
on the player, used by the collision witness. -/
def demoCollideSession : Session :=
  { state := GameState.playing, mode := modePikachu,
    sim := { prepareScene modePikachu { width := 640, height := 360 } 1500 with
             obstacles := [{ x := 120, y := 248, width := 56, height := 56, id := 0 }] },
    bestScores := fun _ => 0 }

end CritterDash

namespace NeonDash

/-- `interface GameObject` of part_003. -/
structure GameObject where
  x : ℚ
  y : ℚ
  width : ℚ
  height : ℚ
deriving DecidableEq

/-- `interface Spike extends GameObject { id: number }` of part_003. -/
structure Spike extends GameObject where
  id : ℕ
deriving DecidableEq

/-- `interface FlyingObstacle extends GameObject { id; speed }` of part_003. -/
structure FlyingObstacle extends GameObject where
  id : ℕ
  speed : ℚ
deriving DecidableEq

/-- part_003's game state: `'menu' | 'playing' | 'paused' | 'gameOver'`. -/
inductive GState where
  | menu
  | playing
  | paused
  | gameOver
deriving DecidableEq

/-- The sampled "currently held" key set the loop reads
(`ArrowLeft`/`KeyA`, `ArrowRight`/`KeyD`, `ArrowUp`/`KeyW`,
`ArrowDown`/`KeyS`). -/
structure Keys where
  left : Bool
  right : Bool
  up : Bool
  down : Bool
deriving DecidableEq

/-- One loop invocation's `Math.random()` draws, as an oracle:
`ceilingSpike` is `Math.random() < 0.6`; `ceilingOffset` is
`Math.random() * 100`; `gengarThree` is `Math.random() < 0.8`; `flyingTwo`
is `Math.random() < 0.7`; `pickHeight i` is the height drawn from the
`heights` array for obstacle `i`; `speedJitter i` is the
`Math.random() * c` speed increment for obstacle `i`. -/
structure RandDraws where
  ceilingSpike : Bool
  ceilingOffset : ℚ
  gengarThree : Bool
  flyingTwo : Bool
  pickHeight : ℕ → ℚ
  speedJitter : ℕ → ℚ

/-- The React state of the part_003 component that the loop touches
(`gameWidth`/`gameHeight` are the responsive dimensions, state as well). -/
structure World where
  gameState : GState
  score : ℚ
  player : GameObject
  spikes : List Spike
  flyingObstacles : List FlyingObstacle
  isJumping : Bool
  jumpVelocity : ℚ
  currentSpeed : ℚ
  isFlying : Bool
  flyingY : ℚ
  isGengar : Bool
  gravityUp : Bool
  flyingModeChangedAt : Option ℚ
  gengarModeChangedAt : Option ℚ
  spikeIdCounter : ℕ
  flyingObstacleIdCounter : ℕ
  gameWidth : ℚ
  gameHeight : ℚ

/-- `checkCollision` of part_003 (lines 183–190). -/
def checkCollision (rect1 rect2 : GameObject) : Bool :=
  decide (rect1.x < rect2.x + rect2.width) &&
  decide (rect1.x + rect1.width > rect2.x) &&
  decide (rect1.y < rect2.y + rect2.height) &&
  decide (rect1.y + rect1.height > rect2.y)

/-- The Escape branch of `handleKeyDown` (part_003 lines 428–436) and the
mobile pause button (line 510): one toggle per command,
`playing → paused` and `paused → playing`, other states untouched. -/
def escapeToggle : GState → GState
  | GState.playing => GState.paused
  | GState.paused => GState.playing
  | s => s

/-- The player's current width for the right-edge clamp
(part_003 line 239): `CHARIZARD_SIZE`, `PLAYER_SIZE - 14` or `PLAYER_SIZE`. -/
def playerSizeFor (isFlying isGengar : Bool) : ℚ :=
  if isFlying then 50 else if isGengar then 36 else 50

/-- Result of the `setPlayer` update of one loop invocation. -/
structure PlayerStep where
  player : GameObject
  isJumping : Bool
  jumpVelocity : ℚ
  flyingY : ℚ

/-- The `setPlayer` update of the loop (part_003 lines 229–272): horizontal
arrows, then the flying / Gengar / jumping vertical rule. -/
def playerUpdate (keys : Keys) (w : World) : PlayerStep :=
  let groundY := w.gameHeight - 50
  let x1 := if keys.left then max 0 (w.player.x - 6) else w.player.x
  let x2 := if keys.right
    then min (w.gameWidth - playerSizeFor w.isFlying w.isGengar) (x1 + 6) else x1
  if w.isFlying then
    let y1 := if keys.up then max 50 (w.player.y - 4) else w.player.y
    let y2 := if keys.down then min (groundY - 50) (y1 + 4) else y1
    { player := { w.player with x := x2, y := y2 }, isJumping := w.isJumping,
      jumpVelocity := w.jumpVelocity, flyingY := y2 }
  else if w.isGengar then
    let y2 := if w.gravityUp then max (w.player.y - 4) 50
              else min (w.player.y + 4) (groundY - 36)
    { player := { w.player with x := x2, y := y2 }, isJumping := w.isJumping,
      jumpVelocity := w.jumpVelocity, flyingY := w.flyingY }
  else if w.isJumping then
    let yRaw := w.player.y + w.jumpVelocity
    let vRaw := w.jumpVelocity + 0.5
    if groundY - 50 ≤ yRaw then
      { player := { w.player with x := x2, y := groundY - 50 }, isJumping := false,
        jumpVelocity := 0, flyingY := w.flyingY }
    else
      { player := { w.player with x := x2, y := yRaw }, isJumping := w.isJumping,
        jumpVelocity := vRaw, flyingY := w.flyingY }
  else
    { player := { w.player with x := x2 }, isJumping := w.isJumping,
      jumpVelocity := w.jumpVelocity, flyingY := w.flyingY }

/-- Spike advance and despawn (part_003 lines 276–278). -/
def moveSpikes (speed : ℚ) (l : List Spike) : List Spike :=
  (l.map fun sp => { sp with x := sp.x - speed }).filter fun sp =>
    decide (0 < sp.x + sp.width)

/-- Flying-obstacle advance (each by its own speed) and despawn
(part_003 lines 291–293). -/
def moveFlying (l : List FlyingObstacle) : List FlyingObstacle :=
  (l.map fun o => { o with x := o.x - o.speed }).filter fun o =>
    decide (0 < o.x + o.width)

/-- `isInFlyingGracePeriod` (part_003 lines 310, 347, 407):
`flyingModeChangedAt && (now - flyingModeChangedAt) < 2000 && isFlying`,
with JavaScript truthiness on the stored timestamp. -/
def inFlyingGrace (now : ℚ) (changedAt : Option ℚ) (isFlying : Bool) : Bool :=
  match changedAt with
  | none => false
  | some t => (!(t == 0)) && decide (now - t < 2000) && isFlying

/-- `isInGengarGracePeriod` (part_003 lines 311, 348, 408). -/
def inGengarGrace (now : ℚ) (changedAt : Option ℚ) (isGengar : Bool) : Bool :=
  match changedAt with
  | none => false
  | some t => (!(t == 0)) && decide (now - t < 5000) && isGengar

/-- The spike-spawning `setSpikes` block (part_003 lines 305–339): blocked
during either grace period; otherwise a ground spike (and, in flying mode,
maybe a ceiling spike) spawns when the last spike is far enough left. -/
def spawnSpikes (now : ℚ) (r : RandDraws) (w : World) (prevSpikes : List Spike)
    (ctr : ℕ) : List Spike × ℕ :=
  let spikeDistance : ℚ := if w.isFlying then 200 else 350
  let graceF := inFlyingGrace now w.flyingModeChangedAt w.isFlying
  let graceG := inGengarGrace now w.gengarModeChangedAt w.isGengar
  let spaceOk := match prevSpikes.getLast? with
    | none => true
    | some last => decide (last.x < w.gameWidth - spikeDistance)
  if !graceF && !graceG && spaceOk then
    let ground : Spike :=
      { x := w.gameWidth, y := (w.gameHeight - 50) - 30, width := 25, height := 30,
        id := ctr }
    if w.isFlying && r.ceilingSpike then
      (prevSpikes ++ [ground,
        { x := w.gameWidth + r.ceilingOffset, y := 0, width := 25, height := 60,
          id := ctr + 1 }], ctr + 2)
    else (prevSpikes ++ [ground], ctr + 1)
  else (prevSpikes, ctr)

/-- The flying-obstacle-spawning `setFlyingObstacles` block
(part_003 lines 342–401): blocked during either grace period; otherwise a
batch whose size and placement depend on the active motion mode. -/
def spawnFlying (now : ℚ) (r : RandDraws) (w : World) (prev : List FlyingObstacle)
    (ctr : ℕ) : List FlyingObstacle × ℕ :=
  let obstacleDistance : ℚ := if w.isGengar then 150 else if w.isFlying then 250 else 400
  let graceF := inFlyingGrace now w.flyingModeChangedAt w.isFlying
  let graceG := inGengarGrace now w.gengarModeChangedAt w.isGengar
  let spaceOk := match prev.getLast? with
    | none => true
    | some last => decide (last.x < w.gameWidth - obstacleDistance)
  if !graceF && !graceG && spaceOk then
    if w.isGengar then
      let n := if r.gengarThree then 3 else 2
      (prev ++ (List.range n).map (fun i =>
        { x := w.gameWidth + (i : ℚ) * 60, y := r.pickHeight i, width := 25, height := 25,
          id := ctr + i, speed := w.currentSpeed + r.speedJitter i }), ctr + n)
    else if w.isFlying then
      let n := if r.flyingTwo then 2 else 1
      (prev ++ (List.range n).map (fun i =>
        { x := w.gameWidth + (i : ℚ) * 80, y := r.pickHeight i, width := 35, height := 35,
          id := ctr + i, speed := w.currentSpeed + r.speedJitter i }), ctr + n)
    else
      (prev ++ [{ x := w.gameWidth, y := r.pickHeight 0, width := 35, height := 35,
                  id := ctr, speed := w.currentSpeed + r.speedJitter 0 }], ctr + 1)
  else (prev, ctr)

/-- One invocation of part_003's `gameLoop` (lines 228–413), with the React
state updates applied in source order.  The collision checks compare the
moved obstacles against the `player` value captured by the effect closure,
i.e. the pre-update player.  The body always runs to completion, so spawns,
speed and score updates still apply on the invocation that detects the
collision; the `gameOver` transition takes effect for the next frame. -/
def gameLoop (now : ℚ) (keys : Keys) (r : RandDraws) (w : World) : World :=
  let ps := playerUpdate keys w
  let movedSpikes := moveSpikes w.currentSpeed w.spikes
  let spikeHit := movedSpikes.any fun sp => checkCollision w.player sp.toGameObject
  let movedFlying := moveFlying w.flyingObstacles
  let flyHit := movedFlying.any fun o => checkCollision w.player o.toGameObject
  let sp2 := spawnSpikes now r w movedSpikes w.spikeIdCounter
  let fl2 := spawnFlying now r w movedFlying w.flyingObstacleIdCounter
  let graceF := inFlyingGrace now w.flyingModeChangedAt w.isFlying
  let graceG := inGengarGrace now w.gengarModeChangedAt w.isGengar
  { w with
    player := ps.player, isJumping := ps.isJumping, jumpVelocity := ps.jumpVelocity,
    flyingY := ps.flyingY,
    spikes := sp2.1, spikeIdCounter := sp2.2,
    flyingObstacles := fl2.1, flyingObstacleIdCounter := fl2.2,
    gameState := if spikeHit || flyHit then GState.gameOver else w.gameState,
    currentSpeed := min (w.currentSpeed + 0.001) 5,
    score := if !graceF && !graceG then w.score + 3 else w.score }

/-- One scheduler tick: the game-loop effect schedules `gameLoop` only while
`gameState === 'playing'` (part_003 lines 225–226), so no simulation work
happens in any other state. -/
def tick (now : ℚ) (keys : Keys) (r : RandDraws) (w : World) : World :=
  if w.gameState = GState.playing then gameLoop now keys r w else w

/-- A concrete paused world used by witnesses. -/
def demoWorld : World :=
  { gameState := GState.paused, score := 42,
    player := { x := 50, y := 300, width := 50, height := 50 },
    spikes := [], flyingObstacles := [], isJumping := false, jumpVelocity := 0,
    currentSpeed := 2.5, isFlying := false, flyingY := 0, isGengar := false,
    gravityUp := false, flyingModeChangedAt := none, gengarModeChangedAt := none,
    spikeIdCounter := 0, flyingObstacleIdCounter := 0,
    gameWidth := 800, gameHeight := 400 }

/-- A concrete set of random draws used by witnesses. -/
def demoRand : RandDraws :=
  { ceilingSpike := false, ceilingOffset := 0, gengarThree := false, flyingTwo := false,
    pickHeight := fun _ => 100, speedJitter := fun _ => 0 }

/-- A concrete in-grace flying-mode world used by witnesses. -/
def demoGraceWorld : World :=
  { demoWorld with gameState := GState.playing, isFlying := true,
                   flyingModeChangedAt := some 1 }

end NeonDash

section Theorems

open CritterDash NeonDash

/-- C1: `intersects(a, b)` is true iff `a.x < b.x + b.width` and
`a.x + a.width > b.x` and `a.y < b.y + b.height` and
`a.y + a.height > b.y`; in particular two rectangles sharing only a
boundary edge (`a.x + a.width = b.x`) report no collision. -/
theorem boxesIntersect_iff_and_touching_edges (a b : CritterDash.Rect) :
    (boxesIntersect a b = true ↔
      (a.x < b.x + b.width ∧ a.x + a.width > b.x ∧
       a.y < b.y + b.height ∧ a.y + a.height > b.y)) ∧
    (a.x + a.width = b.x → boxesIntersect a b = false) := by
  constructor
  · simp only [boxesIntersect, Bool.and_eq_true, decide_eq_true_eq, gt_iff_lt]
    constructor
    · rintro ⟨⟨⟨h1, h2⟩, h3⟩, h4⟩
      exact ⟨h1, h2, h3, by linarith⟩
    · rintro ⟨h1, h2, h3, h4⟩
      exact ⟨⟨⟨h1, h2⟩, h3⟩, by linarith⟩
  · intro h
    have hx : ¬ (a.x + a.width > b.x) := by rw [h]; exact lt_irrefl _
    simp [boxesIntersect, hx]

/-- C1 witness: two side-by-side squares sharing exactly the edge
`a.x + a.width = b.x` do not collide. -/
theorem boxesIntersect_touching_edges_witness :
    boxesIntersect { x := 0, y := 0, width := 1, height := 1 }
      { x := 1, y := 0, width := 1, height := 1 } = false :=
  (boxesIntersect_iff_and_touching_edges _ _).2 (by norm_num)

/-- C4: when a run ends, the stored best score of the active mode becomes
`max(oldBest, finalScore)` with `finalScore = ⌊score⌋`; other modes' entries
are unchanged; no entry ever decreases. -/
theorem best_score_update_law (sess : Session) :
    (endGame sess).bestScores sess.mode.id =
      max (sess.bestScores sess.mode.id) ⌊sess.sim.score⌋ ∧
    (∀ k : String, k ≠ sess.mode.id →
      (endGame sess).bestScores k = sess.bestScores k) ∧
    (∀ k : String, sess.bestScores k ≤ (endGame sess).bestScores k) := by
  refine ⟨?_, ?_, ?_⟩
  · simp only [endGame]
    rw [if_pos trivial]
    rcases lt_or_le (sess.bestScores sess.mode.id) ⌊sess.sim.score⌋ with h | h
    · rw [if_pos h]; exact (max_eq_right h.le).symm
    · rw [if_neg (not_lt.mpr h)]; exact (max_eq_left h).symm
  · intro k hk
    simp only [endGame]
    rw [if_neg hk]
  · intro k
    by_cases hk : k = sess.mode.id
    · subst hk
      simp only [endGame]
      rw [if_pos trivial]
      rcases lt_or_le (sess.bestScores sess.mode.id) ⌊sess.sim.score⌋ with h | h
      · rw [if_pos h]; exact h.le
      · rw [if_neg (not_lt.mpr h)]
    · simp only [endGame]
      rw [if_neg hk]

/-- C4 witness: ending the demo run raises `"pikachu"` to
`max(old, ⌊score⌋)` and leaves `"gengar"` untouched. -/
theorem best_score_update_law_witness :
    (endGame demoSession).bestScores "gengar" = demoSession.bestScores "gengar" ∧
    (endGame demoSession).bestScores demoSession.mode.id =
      max (demoSession.bestScores demoSession.mode.id) ⌊demoSession.sim.score⌋ :=
  ⟨(best_score_update_law demoSession).2.1 "gengar" (by decide),
   (best_score_update_law demoSession).1⟩

/-- C5: part_003's state machine has a `paused` state; the Escape toggle maps
`playing` to `paused` and `paused` back to `playing` (one toggle per
command), and the loop processes no tick while the state is `paused`. -/
theorem paused_state_machine :
    escapeToggle GState.playing = GState.paused ∧
    escapeToggle GState.paused = GState.playing ∧
    ∀ (now : ℚ) (keys : Keys) (r : RandDraws) (w : World),
      w.gameState = GState.paused → NeonDash.tick now keys r w = w := by
  refine ⟨rfl, rfl, ?_⟩
  intro now keys r w hw
  simp [NeonDash.tick, hw]

/-- C5 witness: a tick on the concrete paused world changes nothing. -/
theorem paused_state_machine_witness :
    NeonDash.tick 0 { left := false, right := false, up := false, down := false }
      demoRand demoWorld = demoWorld :=
  paused_state_machine.2.2 0 _ demoRand demoWorld rfl

/-- C6: during a tick inside a flying- or Gengar-mode grace period, the spike
list and the flying-obstacle list only advance and despawn — no new obstacle
is spawned. -/
theorem grace_period_blocks_spawning (now : ℚ) (keys : Keys) (r : RandDraws) (w : World)
    (h : inFlyingGrace now w.flyingModeChangedAt w.isFlying = true ∨
         inGengarGrace now w.gengarModeChangedAt w.isGengar = true) :
    (gameLoop now keys r w).spikes = moveSpikes w.currentSpeed w.spikes ∧
    (gameLoop now keys r w).flyingObstacles = moveFlying w.flyingObstacles := by
  have hs : spawnSpikes now r w (moveSpikes w.currentSpeed w.spikes) w.spikeIdCounter =
      (moveSpikes w.currentSpeed w.spikes, w.spikeIdCounter) := by
    rcases h with h | h <;> simp [spawnSpikes, h]
  have hf : spawnFlying now r w (moveFlying w.flyingObstacles) w.flyingObstacleIdCounter =
      (moveFlying w.flyingObstacles, w.flyingObstacleIdCounter) := by
    rcases h with h | h <;> simp [spawnFlying, h]
  constructor
  · simp only [gameLoop, hs]
  · simp only [gameLoop, hf]

/-- C6 witness: on the concrete world one simulated millisecond into the
flying grace period, a tick spawns nothing. -/
theorem grace_period_blocks_spawning_witness :
    (gameLoop 2 { left := false, right := false, up := false, down := false }
      demoRand demoGraceWorld).spikes =
      moveSpikes demoGraceWorld.currentSpeed demoGraceWorld.spikes ∧
    (gameLoop 2 { left := false, right := false, up := false, down := false }
      demoRand demoGraceWorld).flyingObstacles =
      moveFlying demoGraceWorld.flyingObstacles :=
  grace_period_blocks_spawning 2 _ demoRand demoGraceWorld
    (Or.inl (by norm_num [inFlyingGrace, demoGraceWorld, demoWorld]))

/-- C10: simulation ticks and jump commands leave the player's `x`, `width`
and `height` unchanged — only `y`, `velocityY` and `jumpsUsed` are mutated
between scene preparations. -/
theorem player_frame_effect (mode : GameMode) (floorY delta : ℚ) (holding : Bool)
    (p : Player) (dims : Dimensions) (prm : Bool) (rand : TickRand) (s : SimState) :
    ((tickPlayer mode floorY delta holding p).x = p.x ∧
     (tickPlayer mode floorY delta holding p).width = p.width ∧
     (tickPlayer mode floorY delta holding p).height = p.height) ∧
    ((jumpPlayer mode p).x = p.x ∧
     (jumpPlayer mode p).width = p.width ∧
     (jumpPlayer mode p).height = p.height) ∧
    ((step mode dims prm delta holding rand s).sim.player.x = s.player.x ∧
     (step mode dims prm delta holding rand s).sim.player.width = s.player.width ∧
     (step mode dims prm delta holding rand s).sim.player.height = s.player.height) := by
  have htick : ∀ (fy d : ℚ) (hb : Bool) (q : Player),
      (tickPlayer mode fy d hb q).x = q.x ∧
      (tickPlayer mode fy d hb q).width = q.width ∧
      (tickPlayer mode fy d hb q).height = q.height := by
    intro fy d hb q
    simp only [tickPlayer, integrate, clampFloor, clampCeiling]
    split <;> split <;> simp
  have hjump : (jumpPlayer mode p).x = p.x ∧ (jumpPlayer mode p).width = p.width ∧
      (jumpPlayer mode p).height = p.height := by
    simp only [jumpPlayer]
    split <;> simp
  have hstep : (step mode dims prm delta holding rand s).sim.player =
      tickPlayer mode (floorYOf dims) delta holding s.player := by
    simp only [step]
    split <;> rfl
  exact ⟨htick floorY delta holding p, hjump, by rw [hstep]; exact htick _ _ _ _⟩

theorem step_sim_player (mode : GameMode) (dims : Dimensions) (prm : Bool) (delta : ℚ)
    (holding : Bool) (rand : TickRand) (s : SimState) :
    (step mode dims prm delta holding rand s).sim.player =
      tickPlayer mode (floorYOf dims) delta holding s.player := by
  simp only [step]
  split <;> rfl

theorem step_sim_obstacles (mode : GameMode) (dims : Dimensions) (prm : Bool) (delta : ℚ)
    (holding : Bool) (rand : TickRand) (s : SimState) :
    (step mode dims prm delta holding rand s).sim.obstacles =
      (obstaclePhase mode dims delta rand (rampOf mode prm (s.elapsed + delta)) s).obstacles := by
  simp only [step]
  split <;> rfl

theorem step_sim_nextObstacleId (mode : GameMode) (dims : Dimensions) (prm : Bool)
    (delta : ℚ) (holding : Bool) (rand : TickRand) (s : SimState) :
    (step mode dims prm delta holding rand s).sim.nextObstacleId =
      (obstaclePhase mode dims delta rand (rampOf mode prm (s.elapsed + delta)) s).nextId := by
  simp only [step]
  split <;> rfl

theorem mode_facts {mode : GameMode} (hm : mode ∈ GAME_MODES) :
    0 < mode.gravity ∧ 0 < mode.speed ∧ 0 ≤ mode.speedRamp ∧
    (mode.ability = Ability.doubleJump →
      mode.jumpVelocity ^ 2 / (2 * mode.gravity) + 2 ≤ 148) := by
  simp only [GAME_MODES, List.mem_cons, List.not_mem_nil, or_false] at hm
  rcases hm with rfl | rfl | rfl | rfl <;>
    norm_num [modePikachu, modeCharizard, modeGengar, modeCapybara]

theorem computeDimensions_height_ge (hw : Bool) (iw : ℚ) :
    260 ≤ (computeDimensions hw iw).height := by
  unfold computeDimensions
  split
  · exact le_max_left _ _
  · norm_num

theorem floorY_ge_148 (hw : Bool) (iw : ℚ) :
    148 ≤ floorYOf (computeDimensions hw iw) := by
  have h := computeDimensions_height_ge hw iw
  unfold floorYOf PLAYER_SIZE GROUND_HEIGHT
  linarith

/-- C7 counterexample: the mode-select buttons are not gated on the game
state, so a mode switch command issued while `playing` is accepted — the
active mode changes.  This refutes "accepted only while the game state is
not playing". -/
theorem mode_switch_accepted_while_playing :
    demoSession.state = GameState.playing ∧
    demoSession.mode.id = "pikachu" ∧
    (selectMode modeGengar { width := 640, height := 360 } 1500 demoSession).mode.id =
      "gengar" := by
  refine ⟨rfl, rfl, ?_⟩
  rfl

/-- C7 (amended): a mode switch command is accepted in any state, including
while playing; selecting a mode different from the active one atomically
changes the active mode, performs a full scene reset (player position,
obstacle list, id counter, score, milestone, elapsed time and spawn timer
re-initialized) and puts the game in the menu state. -/
theorem mode_switch_resets (entry : GameMode) (dims : Dimensions) (roll : ℚ)
    (sess : Session) (h : entry.id ≠ sess.mode.id) :
    (selectMode entry dims roll sess).mode = entry ∧
    (selectMode entry dims roll sess).state = GameState.menu ∧
    (selectMode entry dims roll sess).sim = prepareScene entry dims roll ∧
    (selectMode entry dims roll sess).sim.obstacles = [] ∧
    (selectMode entry dims roll sess).sim.nextObstacleId = 0 ∧
    (selectMode entry dims roll sess).sim.score = 0 ∧
    (selectMode entry dims roll sess).sim.milestone = 0 ∧
    (selectMode entry dims roll sess).sim.elapsed = 0 ∧
    (selectMode entry dims roll sess).sim.spawnTimer = roll ∧
    (selectMode entry dims roll sess).sim.player.y = floorYOf dims ∧
    (selectMode entry dims roll sess).bestScores = sess.bestScores := by
  unfold selectMode
  rw [if_neg h]
  exact ⟨rfl, rfl, rfl, rfl, rfl, rfl, rfl, rfl, rfl, rfl, rfl⟩

/-- C7 witness: switching the demo session (which is `playing`) to the
`"gengar"` mode resets the scene and lands in the menu. -/
theorem mode_switch_resets_witness :
    (selectMode modeGengar { width := 640, height := 360 } 1500 demoSession).mode =
      modeGengar ∧
    (selectMode modeGengar { width := 640, height := 360 } 1500 demoSession).state =
      GameState.menu ∧
    (selectMode modeGengar { width := 640, height := 360 } 1500 demoSession).sim.score = 0 :=
  ⟨(mode_switch_resets modeGengar _ 1500 demoSession (by decide)).1,
   (mode_switch_resets modeGengar _ 1500 demoSession (by decide)).2.1,
   (mode_switch_resets modeGengar _ 1500 demoSession (by decide)).2.2.2.2.2.1⟩

theorem rampOf_ge_one (mode : GameMode) (hsr : 0 ≤ mode.speedRamp) (prm : Bool)
    (e : ℚ) (he : 0 ≤ e) : 1 ≤ rampOf mode prm e := by
  unfold rampOf
  have hq : 0 ≤ (e / 1000) * mode.speedRamp :=
    mul_nonneg (div_nonneg he (by norm_num)) hsr
  refine le_min (by norm_num) ?_
  split
  · nlinarith
  · linarith

/-- C8: in the main variant, the score never decreases across a tick taken
while playing (there are no grace periods in this variant); in the part_003
variant, the score does not change while the state is `paused`. -/
theorem score_monotone_and_paused_frozen :
    (∀ (mode : GameMode), mode ∈ GAME_MODES →
      ∀ (dims : Dimensions) (prm : Bool) (delta : ℚ) (holding : Bool)
        (rand : TickRand) (s : SimState), 0 ≤ delta → 0 ≤ s.elapsed →
        s.score ≤ (step mode dims prm delta holding rand s).sim.score) ∧
    (∀ (now : ℚ) (keys : Keys) (r : RandDraws) (w : World),
      w.gameState = GState.paused → (NeonDash.tick now keys r w).score = w.score) := by
  constructor
  · intro mode hm dims prm delta holding rand s hd he
    obtain ⟨-, hsp, hsr, -⟩ := mode_facts hm
    have hramp : 1 ≤ rampOf mode prm (s.elapsed + delta) :=
      rampOf_ge_one mode hsr prm _ (by linarith)
    have hacc : 0 ≤ delta * 0.015 * mode.speed * rampOf mode prm (s.elapsed + delta) := by
      have h1 : 0 ≤ delta * 0.015 := by nlinarith
      have h2 : 0 ≤ delta * 0.015 * mode.speed := by nlinarith
      nlinarith
    by_cases hc : collides mode (tickPlayer mode (floorYOf dims) delta holding s.player)
        ((obstaclePhase mode dims delta rand (rampOf mode prm (s.elapsed + delta))
          s).obstacles) = true
    · simp [step, hc]
    · simp [step, hc]
      linarith
  · intro now keys r w hw
    simp [NeonDash.tick, hw]

/-- C8 witness: a 16 ms playing tick of the freshly prepared demo scene does
not decrease the score, and a tick on the concrete paused world leaves the
score unchanged. -/
theorem score_monotone_and_paused_frozen_witness :
    demoSession.sim.score ≤
      (step modePikachu { width := 640, height := 360 } false 16 false
        { clusterTwo := false, h1 := 50, w1 := 40, gap1 := 60, h2 := 50, w2 := 40,
          recovery := 0, spawnDelay := 1500 } demoSession.sim).sim.score ∧
    (NeonDash.tick 0 { left := false, right := false, up := false, down := false }
      demoRand demoWorld).score = demoWorld.score :=
  ⟨score_monotone_and_paused_frozen.1 modePikachu (by simp [GAME_MODES])
      { width := 640, height := 360 } false 16 false _ demoSession.sim
      (by norm_num) (by norm_num [demoSession, prepareScene]),
   score_monotone_and_paused_frozen.2 0 _ demoRand demoWorld rfl⟩

theorem moveFilter_mem {d : ℚ} {l : List Obstacle} {o : Obstacle} (ho : o ∈ l) :
    (({ o with x := o.x - d } : Obstacle) ∈ moveFilter d l ↔ -40 < o.x - d + o.width) := by
  unfold moveFilter
  rw [List.mem_filter]
  simp only [decide_eq_true_eq]
  constructor
  · rintro ⟨-, h⟩
    exact h
  · intro h
    exact ⟨List.mem_map.2 ⟨o, ho, rfl⟩, h⟩

theorem moveFilter_pairwise {d : ℚ} {l : List Obstacle}
    (h : l.Pairwise fun a b => a.id < b.id) :
    (moveFilter d l).Pairwise fun a b => a.id < b.id := by
  unfold moveFilter
  exact List.Pairwise.filter _ ((List.pairwise_map).2 (h.imp fun hab => hab))

theorem moveFilter_id_lt {d : ℚ} {l : List Obstacle} {n : ℕ}
    (h : ∀ o ∈ l, Obstacle.id o < n) :
    ∀ o ∈ moveFilter d l, o.id < n := by
  intro o ho
  unfold moveFilter at ho
  rcases List.mem_filter.1 ho with ⟨hm, -⟩
  rcases List.mem_map.1 hm with ⟨o2, ho2, rfl⟩
  exact h o2 ho2

theorem spawnCluster_ids (nextId : ℕ) (base gl : ℚ) (r : TickRand) :
    (∀ o ∈ spawnCluster nextId base gl r,
      nextId ≤ o.id ∧ o.id < nextId + (if r.clusterTwo then 2 else 1)) ∧
    (spawnCluster nextId base gl r).Pairwise (fun a b => a.id < b.id) := by
  unfold spawnCluster
  split_ifs with h
  · constructor
    · intro o ho
      rcases List.mem_cons.1 ho with rfl | ho2
      · exact ⟨le_refl _, by show nextId < nextId + 2; omega⟩
      · rcases List.mem_cons.1 ho2 with rfl | ho3
        · exact ⟨by show nextId ≤ nextId + 1; omega,
                 by show nextId + 1 < nextId + 2; omega⟩
        · exact absurd ho3 (List.not_mem_nil _)
    · simp [List.pairwise_cons]
  · constructor
    · intro o ho
      rcases List.mem_cons.1 ho with rfl | ho2
      · exact ⟨le_refl _, by show nextId < nextId + 1; omega⟩
      · exact absurd ho2 (List.not_mem_nil _)
    · simp

theorem obstaclePhase_ok (mode : GameMode) (dims : Dimensions) (delta : ℚ)
    (rand : TickRand) (ramp : ℚ) (s : SimState) (h : ObstaclesOk s) :
    (∀ o ∈ (obstaclePhase mode dims delta rand ramp s).obstacles,
      o.id < (obstaclePhase mode dims delta rand ramp s).nextId) ∧
    (obstaclePhase mode dims delta rand ramp s).obstacles.Pairwise
      (fun a b => a.id < b.id) := by
  obtain ⟨hb, hp⟩ := h
  obtain ⟨hcb, hcp⟩ := spawnCluster_ids s.nextObstacleId (dims.width + 48)
    (dims.height - GROUND_HEIGHT) rand
  dsimp only [obstaclePhase]
  by_cases hsp : s.spawnTimer - delta ≤ 0
  · rw [if_pos hsp]
    constructor
    · intro o ho
      show o.id < s.nextObstacleId + (if rand.clusterTwo then 2 else 1)
      rcases List.mem_append.1 ho with hmv | hcl
      · exact lt_of_lt_of_le (moveFilter_id_lt hb _ hmv) (Nat.le_add_right _ _)
      · exact (hcb o hcl).2
    · show (moveFilter _ s.obstacles ++ spawnCluster _ _ _ rand).Pairwise _
      refine (List.pairwise_append).2 ⟨moveFilter_pairwise hp, hcp, ?_⟩
      intro a ha b hb2
      have h1 := moveFilter_id_lt hb _ ha
      have h2 := (hcb b hb2).1
      omega
  · rw [if_neg hsp]
    exact ⟨fun o ho => moveFilter_id_lt hb _ ho, moveFilter_pairwise hp⟩

theorem obstaclesOk_reach (mode : GameMode) (dims : Dimensions) (s : SimState)
    (hs : SimReach mode dims s) : ObstaclesOk s := by
  induction hs with
  | init roll =>
    exact ⟨fun o ho => absurd ho (List.not_mem_nil _), List.Pairwise.nil⟩
  | tick prm delta holding rand hs ih =>
    rename_i s2
    constructor
    · rw [step_sim_obstacles, step_sim_nextObstacleId]
      exact (obstaclePhase_ok mode dims delta rand _ s2 ih).1
    · rw [step_sim_obstacles]
      exact (obstaclePhase_ok mode dims delta rand _ s2 ih).2
  | jump hs ih =>
    exact ih

/-- C9: in every reachable run state all obstacle ids are distinct, and the
tick's move-and-filter removes a moved obstacle exactly when its right edge
`x + width` has crossed the `-40` left margin — kept if and only if it is
still right of the margin. -/
theorem obstacle_lifecycle (mode : GameMode) (dims : Dimensions) (s : SimState)
    (hs : SimReach mode dims s) :
    (s.obstacles.map fun o => o.id).Nodup ∧
    ∀ (d : ℚ), ∀ o ∈ s.obstacles,
      (({ o with x := o.x - d } : Obstacle) ∈ moveFilter d s.obstacles ↔
        -40 < o.x - d + o.width) := by
  obtain ⟨hb, hp⟩ := obstaclesOk_reach mode dims s hs
  constructor
  · exact (List.pairwise_map).2 (hp.imp fun hab => Nat.ne_of_lt hab)
  · intro d o ho
    exact moveFilter_mem ho

/-- C9 witness: the freshly prepared scene (reached by `SimReach.init`) has
duplicate-free obstacle ids. -/
theorem obstacle_lifecycle_witness :
    ((prepareScene modePikachu { width := 640, height := 360 } 1500).obstacles.map
      fun o => o.id).Nodup :=
  (obstacle_lifecycle modePikachu { width := 640, height := 360 } _
    (SimReach.init 1500)).1

theorem clampFloor_of_lt {floorY : ℚ} {p : Player} (h : floorY < p.y) :
    clampFloor floorY p = { p with y := floorY, velocityY := 0, jumpsUsed := 0 } :=
  if_pos h

theorem clampFloor_of_le {floorY : ℚ} {p : Player} (h : p.y ≤ floorY) :
    clampFloor floorY p = p :=
  if_neg (not_lt.2 h)

theorem clampCeiling_of_lt {p : Player} (h : p.y < 0) :
    clampCeiling p = { p with y := 0, velocityY := 0 } :=
  if_pos h

theorem clampCeiling_of_le {p : Player} (h : 0 ≤ p.y) :
    clampCeiling p = p :=
  if_neg (not_lt.2 h)

theorem energy_step (g r : ℚ) (hg : g ≠ 0) (y v : ℚ) :
    (y + (v + g * r) * r) - (v + g * r) ^ 2 / (2 * g) =
      (y - v ^ 2 / (2 * g)) + g * r ^ 2 / 2 := by
  field_simp
  ring

theorem pinv_init (mode : GameMode) (dims : Dimensions) (roll : ℚ)
    (hf : 1 ≤ floorYOf dims) :
    PInv mode (floorYOf dims) (prepareScene mode dims roll).player := by
  refine ⟨?_, ?_, ?_, ?_⟩
  · show (0 : ℚ) ≤ floorYOf dims
    linarith
  · show floorYOf dims ≤ floorYOf dims
    exact le_refl _
  · intro _
    exact ⟨rfl, rfl⟩
  · intro _ hj1
    exact absurd hj1 Nat.zero_ne_one

theorem pinv_core (mode : GameMode) (floorY g r : ℚ) (hg0 : 0 < g)
    (hgd : mode.ability = Ability.doubleJump → g = mode.gravity)
    (hf : 1 ≤ floorY)
    (hdj : mode.ability = Ability.doubleJump →
      mode.jumpVelocity ^ 2 / (2 * mode.gravity) + 2 ≤ floorY)
    (hr0 : 0 ≤ r) (p : Player) (hp : PInv mode floorY p) :
    PInv mode floorY (clampCeiling (clampFloor floorY (integrate g r p))) := by
  obtain ⟨h0, hfl, hrest, hE⟩ := hp
  have hqy : (integrate g r p).y = p.y + (p.velocityY + g * r) * r := rfl
  have hqv : (integrate g r p).velocityY = p.velocityY + g * r := rfl
  rcases lt_or_le floorY (integrate g r p).y with hcf | hcf
  · -- the floor clamp fires: the player rests on the floor with a re-armed jump
    rw [clampFloor_of_lt hcf, clampCeiling_of_le (by show (0:ℚ) ≤ floorY; linarith)]
    refine ⟨?_, ?_, ?_, ?_⟩
    · show (0 : ℚ) ≤ floorY
      linarith
    · show floorY ≤ floorY
      exact le_refl _
    · intro _
      exact ⟨rfl, rfl⟩
    · intro _ hj1
      exact absurd hj1 Nat.zero_ne_one
  · rw [clampFloor_of_le hcf]
    rcases lt_or_le (integrate g r p).y 0 with hcc | hcc
    · -- the ceiling clamp fires; this needs at least one spent jump, and in the
      -- double-jump mode the energy bound rules out reaching it on one jump
      rw [clampCeiling_of_lt hcc]
      have hju : p.jumpsUsed ≠ 0 := by
        intro hj0
        obtain ⟨hy, hv⟩ := hrest hj0
        rw [hqy, hy, hv] at hcc
        nlinarith [mul_nonneg (mul_nonneg hg0.le hr0) hr0]
      refine ⟨?_, ?_, ?_, ?_⟩
      · show (0 : ℚ) ≤ 0
        exact le_refl _
      · show (0 : ℚ) ≤ floorY
        linarith
      · intro hj0
        exact absurd hj0 hju
      · intro hab hj1
        exfalso
        have hgg := hgd hab
        have hE0 := hE hab hj1
        have hBnd := hdj hab
        have hgq : 0 < mode.gravity := hgg ▸ hg0
        have hen := energy_step mode.gravity r (ne_of_gt hgq) p.y p.velocityY
        rw [hqy, hgg] at hcc
        have hv2 : 0 ≤ (p.velocityY + mode.gravity * r) ^ 2 / (2 * mode.gravity) :=
          div_nonneg (sq_nonneg _) (by linarith)
        have hr2 : 0 ≤ mode.gravity * r ^ 2 / 2 := by positivity
        linarith
    · -- no clamp fires
      rw [clampCeiling_of_le hcc]
      refine ⟨hcc, hcf, ?_, ?_⟩
      · intro hj0
        obtain ⟨hy, hv⟩ := hrest hj0
        have hq2 : p.y + (p.velocityY + g * r) * r ≤ floorY := by
          rw [← hqy]
          exact hcf
        rw [hy, hv] at hq2
        have hgr : g * (r * r) ≤ 0 := by nlinarith
        have h3 : r * r ≤ 0 := by nlinarith
        have hrr0 : r = 0 := mul_self_eq_zero.1 (le_antisymm h3 (mul_nonneg hr0 hr0))
        constructor
        · show p.y + (p.velocityY + g * r) * r = floorY
          rw [hrr0, hy, hv]
          ring
        · show p.velocityY + g * r = 0
          rw [hrr0, hv]
          ring
      · intro hab hj1
        have hgg := hgd hab
        have hE0 := hE hab hj1
        have hgq : 0 < mode.gravity := hgg ▸ hg0
        have hen := energy_step mode.gravity r (ne_of_gt hgq) p.y p.velocityY
        show floorY - (1 + mode.jumpVelocity ^ 2 / (2 * mode.gravity)) ≤
          (integrate g r p).y - (integrate g r p).velocityY ^ 2 / (2 * mode.gravity)
        rw [hqy, hqv, hgg]
        have hr2 : 0 ≤ mode.gravity * r ^ 2 / 2 := by positivity
        linarith

theorem pinv_tick (mode : GameMode) (floorY : ℚ) (hg : 0 < mode.gravity)
    (hf : 1 ≤ floorY)
    (hdj : mode.ability = Ability.doubleJump →
      mode.jumpVelocity ^ 2 / (2 * mode.gravity) + 2 ≤ floorY)
    (delta : ℚ) (hd : 0 ≤ delta) (holding : Bool) (p : Player)
    (hp : PInv mode floorY p) :
    PInv mode floorY (tickPlayer mode floorY delta holding p) := by
  unfold tickPlayer
  refine pinv_core mode floorY (effGravity mode holding) (delta / 16.67) ?_ ?_ hf hdj ?_ p hp
  · unfold effGravity
    split
    · linarith
    · linarith
  · intro hab
    unfold effGravity
    rw [hab]
    simp
  · exact div_nonneg hd (by norm_num)

theorem pinv_jump (mode : GameMode) (floorY : ℚ) (hg : 0 < mode.gravity)
    (hf : 1 ≤ floorY)
    (hdj : mode.ability = Ability.doubleJump →
      mode.jumpVelocity ^ 2 / (2 * mode.gravity) + 2 ≤ floorY)
    (p : Player) (hp : PInv mode floorY p) :
    PInv mode floorY (jumpPlayer mode p) := by
  obtain ⟨h0, hfl, hrest, hE⟩ := hp
  unfold jumpPlayer
  split_ifs with hnj
  · exact ⟨h0, hfl, hrest, hE⟩
  · push_neg at hnj
    by_cases hab : mode.ability = Ability.doubleJump
    · have hm2 : maxJumpsFor mode = 2 := by
        unfold maxJumpsFor
        rw [if_pos hab]
      rw [hm2] at hnj
      have hBnd := hdj hab
      rcases (by omega : p.jumpsUsed = 0 ∨ p.jumpsUsed = 1) with hj0 | hj1
      · obtain ⟨hy, hv⟩ := hrest hj0
        refine ⟨?_, ?_, ?_, ?_⟩
        · show (0 : ℚ) ≤ p.y - 1
          have hq2 : 0 ≤ mode.jumpVelocity ^ 2 / (2 * mode.gravity) :=
            div_nonneg (sq_nonneg _) (by linarith)
          linarith [hy]
        · show p.y - 1 ≤ floorY
          linarith
        · intro hj'
          exact absurd hj' (Nat.succ_ne_zero _)
        · intro _ _
          show floorY - (1 + mode.jumpVelocity ^ 2 / (2 * mode.gravity)) ≤
            (p.y - 1) - (-mode.jumpVelocity) ^ 2 / (2 * mode.gravity)
          have hnq : (-mode.jumpVelocity) ^ 2 = mode.jumpVelocity ^ 2 := by ring
          rw [hnq, hy]
          linarith
      · have hE0 := hE hab hj1
        have hv2 : 0 ≤ p.velocityY ^ 2 / (2 * mode.gravity) :=
          div_nonneg (sq_nonneg _) (by linarith)
        refine ⟨?_, ?_, ?_, ?_⟩
        · show (0 : ℚ) ≤ p.y - 1
          linarith
        · show p.y - 1 ≤ floorY
          linarith
        · intro hj'
          exact absurd hj' (Nat.succ_ne_zero _)
        · intro _ hj'
          exfalso
          have : p.jumpsUsed + 1 = 1 := hj'
          omega
    · have hm1 : maxJumpsFor mode = 1 := by
        unfold maxJumpsFor
        rw [if_neg hab]
      rw [hm1] at hnj
      have hj0 : p.jumpsUsed = 0 := by omega
      obtain ⟨hy, hv⟩ := hrest hj0
      refine ⟨?_, ?_, ?_, ?_⟩
      · show (0 : ℚ) ≤ p.y - 1
        linarith [hy]
      · show p.y - 1 ≤ floorY
        linarith
      · intro hj'
        exact absurd hj' (Nat.succ_ne_zero _)
      · intro hab2 _
        exact absurd hab2 hab

theorem pinv_reach (mode : GameMode) (hm : mode ∈ GAME_MODES) (hw : Bool) (iw : ℚ)
    (p : Player) (hp : PlayerReach mode (computeDimensions hw iw) p) :
    PInv mode (floorYOf (computeDimensions hw iw)) p := by
  obtain ⟨hg, -, -, hj⟩ := mode_facts hm
  have h148 := floorY_ge_148 hw iw
  have hf : (1 : ℚ) ≤ floorYOf (computeDimensions hw iw) := by linarith
  have hdj : mode.ability = Ability.doubleJump →
      mode.jumpVelocity ^ 2 / (2 * mode.gravity) + 2 ≤
        floorYOf (computeDimensions hw iw) :=
    fun hab => le_trans (hj hab) h148
  induction hp with
  | init roll => exact pinv_init mode (computeDimensions hw iw) roll hf
  | tick delta holding hd hp ih => exact pinv_tick mode _ hg hf hdj delta hd holding _ ih
  | jump hp ih => exact pinv_jump mode _ hg hf hdj _ ih

/-- C2: for every sequence of simulation ticks and jump commands starting
from a freshly prepared scene (with the catalog mode and the dimensions
produced by `computeDimensions`), the player's `y` never exceeds
`groundLevel - playerHeight` and never goes below 0. -/
theorem ground_clamp_invariant (mode : GameMode) (hm : mode ∈ GAME_MODES)
    (hw : Bool) (iw : ℚ) (p : Player)
    (hp : PlayerReach mode (computeDimensions hw iw) p) :
    0 ≤ p.y ∧ p.y ≤ floorYOf (computeDimensions hw iw) := by
  obtain ⟨h1, h2, -, -⟩ := pinv_reach mode hm hw iw p hp
  exact ⟨h1, h2⟩

/-- C2 witness: the freshly prepared scene at the default 640×360 dimensions
is within bounds. -/
theorem ground_clamp_invariant_witness :
    0 ≤ (prepareScene modePikachu (computeDimensions false 0) 1500).player.y ∧
    (prepareScene modePikachu (computeDimensions false 0) 1500).player.y ≤
      floorYOf (computeDimensions false 0) :=
  ground_clamp_invariant modePikachu (by simp [GAME_MODES]) false 0 _
    (PlayerReach.init 1500)

/-- C3: if during a playing-state tick the padded player hitbox intersects
some live obstacle, the tick's outcome is `collided`, the tick accrues no
score, the session transitions to `gameOver` via `endGame` recording
`⌊score at tick K⌋` into the best-score map, and a run that has ended
processes no further ticks. -/
theorem collision_ends_run (dims : Dimensions) (prm : Bool) (delta : ℚ)
    (holding : Bool) (rand : TickRand) (sess : Session)
    (hplay : sess.state = GameState.playing)
    (hcol : collides sess.mode
        (step sess.mode dims prm delta holding rand sess.sim).sim.player
        (step sess.mode dims prm delta holding rand sess.sim).sim.obstacles = true) :
    (step sess.mode dims prm delta holding rand sess.sim).outcome = Outcome.collided ∧
    (step sess.mode dims prm delta holding rand sess.sim).sim.score = sess.sim.score ∧
    tickSession dims prm delta holding rand sess =
      endGame { sess with
        sim := (step sess.mode dims prm delta holding rand sess.sim).sim } ∧
    (tickSession dims prm delta holding rand sess).state = GameState.gameOver ∧
    (tickSession dims prm delta holding rand sess).bestScores sess.mode.id =
      max (sess.bestScores sess.mode.id) ⌊sess.sim.score⌋ ∧
    ∀ (dims2 : Dimensions) (prm2 : Bool) (delta2 : ℚ) (holding2 : Bool)
      (rand2 : TickRand),
      tickSession dims2 prm2 delta2 holding2 rand2
          (tickSession dims prm delta holding rand sess) =
        tickSession dims prm delta holding rand sess := by
  have hc : collides sess.mode
      (tickPlayer sess.mode (floorYOf dims) delta holding sess.sim.player)
      ((obstaclePhase sess.mode dims delta rand
        (rampOf sess.mode prm (sess.sim.elapsed + delta)) sess.sim).obstacles) = true := by
    rw [step_sim_player, step_sim_obstacles] at hcol
    exact hcol
  have hout : (step sess.mode dims prm delta holding rand sess.sim).outcome =
      Outcome.collided := by
    simp [step, hc]
  have hscore : (step sess.mode dims prm delta holding rand sess.sim).sim.score =
      sess.sim.score := by
    simp [step, hc]
  have hts : tickSession dims prm delta holding rand sess =
      endGame { sess with
        sim := (step sess.mode dims prm delta holding rand sess.sim).sim } := by
    simp [tickSession, hplay, hout]
  have hst : (tickSession dims prm delta holding rand sess).state =
      GameState.gameOver := by
    rw [hts]
    rfl
  have hbest : (tickSession dims prm delta holding rand sess).bestScores sess.mode.id =
      max (sess.bestScores sess.mode.id) ⌊sess.sim.score⌋ := by
    rw [hts]
    simp only [endGame]
    rw [if_pos trivial, hscore]
    rcases lt_or_le (sess.bestScores sess.mode.id) ⌊sess.sim.score⌋ with h | h
    · rw [if_pos h]
      exact (max_eq_right h.le).symm
    · rw [if_neg (not_lt.mpr h)]
      exact (max_eq_left h).symm
  refine ⟨hout, hscore, hts, hst, hbest, ?_⟩
  intro dims2 prm2 delta2 holding2 rand2
  rw [hts]
  simp [tickSession, endGame]

/-- C3 witness: a zero-delta playing tick of the session holding an obstacle
exactly on the player collides and lands in `gameOver`. -/
theorem collision_ends_run_witness :
    (step demoCollideSession.mode { width := 640, height := 360 } false 0 false
      demoTickRand demoCollideSession.sim).outcome = Outcome.collided ∧
    (tickSession { width := 640, height := 360 } false 0 false demoTickRand
      demoCollideSession).state = GameState.gameOver := by
  have hcol : collides demoCollideSession.mode
      (step demoCollideSession.mode { width := 640, height := 360 } false 0 false
        demoTickRand demoCollideSession.sim).sim.player
      (step demoCollideSession.mode { width := 640, height := 360 } false 0 false
        demoTickRand demoCollideSession.sim).sim.obstacles = true := by
    rw [step_sim_player, step_sim_obstacles]
    norm_num [collides, tickPlayer, integrate, clampFloor, clampCeiling, effGravity,
      obstaclePhase, moveFilter, spawnCluster, rampOf, paddedBox, boxesIntersect,
      prepareScene, demoCollideSession, demoTickRand, modePikachu, floorYOf,
      PLAYER_SIZE, GROUND_HEIGHT, min_def]
  have h := collision_ends_run { width := 640, height := 360 } false 0 false
    demoTickRand demoCollideSession rfl hcol
  exact ⟨h.1, h.2.2.2.1⟩

end Theorems
